import Mathlib

/-!
# Verification of the Google Calendar timeline plugin core

Shallow embedding of the plugin's auth / sync / calendar-client core:

* `TokenManager` (src/unnamed/part_013): token expiry judgement.
* `GoogleAuth` (src/src/auth/GoogleAuth.ts): login, token refresh, access
  token retrieval.
* `CalendarAPI` (src/unnamed/part_009): HTTP error classification and the
  partial-failure tolerant multi-calendar batch fetch.
* `SyncService` (src/unnamed/part_008): the sync orchestration step, the
  single-flight guard, and the read views over the event cache.

JS timestamps (`Date.now()`, parsed `Date` values) are modelled as `Int`
milliseconds since the epoch.  Network and persistence effects are modelled
by passing each awaited operation's outcome (`Except`) as an explicit
argument, so every function of the source becomes a pure Lean function of
its state and of those outcomes.
-/

namespace GCal

/-- OAuth token record (interface `OAuthToken` in `types/calendar.ts`,
shape documented as `{access_token, refresh_token?, token_type, expires_in,
expires_at?, scope?}`).  Optional numeric fields are `Option Int`,
optional strings `Option String`. -/
structure OAuthToken where
  access_token : String
  refresh_token : Option String
  token_type : String
  expires_in : Option Int
  expires_at : Option Int
  scope : Option String
deriving Repr, DecidableEq

/-- JS truthiness test on an optional number: `!x` is true when the field
is absent (`undefined`) or equal to `0`. -/
def jsNumFalsy : Option Int → Bool
  | none => true
  | some v => v == 0

/-- JS truthiness test on an optional string: `!x` is true when the field
is absent or the empty string. -/
def jsStrFalsy : Option String → Bool
  | none => true
  | some s => s == ""

namespace TokenManager

/-- 5-minute refresh buffer, `const bufferMs = 5 * 60 * 1000` in
`TokenManager.isTokenExpired`. -/
def bufferMs : Int := 5 * 60 * 1000

/-- Embeds `TokenManager.isTokenExpired(token)` (src/unnamed/part_013 lines
93-102): returns true when `!token.expires_at` (absent or `0`), otherwise
`Date.now() >= token.expires_at - bufferMs`.  `now` is the current
`Date.now()` instant. -/
def isTokenExpired (token : OAuthToken) (now : Int) : Bool :=
  if jsNumFalsy token.expires_at then
    true
  else
    decide (now ≥ token.expires_at.getD 0 - bufferMs)

end TokenManager

/-- Error taxonomy of `types/calendar.ts` (`AuthenticationError`,
`NetworkError`, `APIError` carrying a status code, `ValidationError`), as
raised throughout the auth and calendar-client code. -/
inductive CalendarError where
  | authentication (message : String)
  | network (message : String)
  | api (message : String) (status : Option Nat)
  | validation (message : String)
deriving Repr, DecidableEq

namespace CalendarAPI

/-- Embeds `CalendarAPI.handleErrorResponse` (src/unnamed/part_009 lines 258-276)
restricted to its classification of the response: given the HTTP status
code and the message already extracted from the response body
(`error.error?.message || error.message || default`), produce the raised
error.  401/403 raise `AuthenticationError`, status ≥ 500 raises
`NetworkError` with a `Server error:` prefix, everything else raises
`APIError` carrying the status code. -/
def handleErrorResponse (status : Nat) (errorMessage : String) : CalendarError :=
  if status == 401 || status == 403 then
    .authentication errorMessage
  else if status ≥ 500 then
    .network ("Server error: " ++ errorMessage)
  else
    .api errorMessage (some status)

end CalendarAPI

/-- Event start/end field (`EventDateTime` in `types/calendar.ts`):
either a timestamp (`dateTime`), a date-only value (`date`), or neither.
The source stores ISO strings and parses them with `new Date(...)`; the
embedding carries the parsed instant directly. -/
structure EventDateTime where
  dateTime : Option Int
  date : Option Int
  timeZone : Option String
deriving Repr, DecidableEq

/-- Calendar event record (`CalendarEvent` in `types/calendar.ts`, as
produced by `CalendarAPI.transformEvent`).  Fields not consulted by the
sync orchestration (attendees, creator, organizer, recurrence, status,
created/updated) are omitted; they are carried around opaquely by the
code under verification. -/
structure CalendarEvent where
  id : String
  summary : String
  description : Option String
  location : Option String
  start : EventDateTime
  «end» : EventDateTime
  calendarId : String
  colorId : Option String
  htmlLink : String
deriving Repr, DecidableEq

namespace CalendarAPI

/-- Embeds `CalendarAPI.listEventsForMultipleCalendars` (src/unnamed/part_009
lines 155-177).  The per-calendar fetch (`this.listEvents(calendarId,
timeMin, timeMax)`) is an awaited network call; its outcome per calendar
id is passed as `fetchOutcome`.  Each calendar id is mapped to its fetched
events on success and to the empty list when its fetch failed
(`results.set(calendarId, [])` in the catch).  The JS `Map` is modelled as
an association list; the source inserts in promise-completion order, the
model in request order — the key/value contents coincide for distinct
keys. -/
def listEventsForMultipleCalendars (calendarIds : List String)
    (fetchOutcome : String → Except String (List CalendarEvent)) :
    List (String × List CalendarEvent) :=
  calendarIds.map (fun calendarId =>
    match fetchOutcome calendarId with
    | .ok events => (calendarId, events)
    | .error _ => (calendarId, []))

end CalendarAPI

/-- Sync status enum (`SyncStatus` in `types/calendar.ts`, values used in
src/unnamed/part_008: `Idle`, `Syncing`, `Success`, `Error`). -/
inductive SyncStatus where
  | idle
  | syncing
  | success
  | error
deriving Repr, DecidableEq

/-- The `SyncState` record: status, last/next sync instants, last error
message. -/
structure SyncState where
  status : SyncStatus
  lastSync : Option Int
  nextSync : Option Int
  error : Option String
deriving Repr, DecidableEq

/-- Calendar record (`Calendar` in `types/calendar.ts`, as produced by
`CalendarAPI.transformCalendar`). -/
structure Calendar where
  id : String
  summary : String
  description : Option String
  backgroundColor : Option String
  foregroundColor : Option String
  selected : Bool
  timeZone : Option String
  accessRole : Option String
  primary : Option Bool
deriving Repr, DecidableEq

/-- The slice of `PluginSettings` consulted by `SyncService`. -/
structure PluginSettings where
  autoSync : Bool
  syncInterval : Int
  selectedCalendars : List String
  lastSyncTime : Option Int
deriving Repr, DecidableEq

namespace SyncService

/-- Embeds `SyncService.getEventStartDate` (src/unnamed/part_008 lines 244-251):
the parsed `start.dateTime` if present, else the parsed `start.date`,
else `new Date()` — the current instant `now`. -/
def getEventStartDate (event : CalendarEvent) (now : Int) : Int :=
  match event.start.dateTime with
  | some t => t
  | none =>
    match event.start.date with
    | some d => d
    | none => now

/-- Embeds `SyncService.getEventEndDate` (src/unnamed/part_008 lines 256-263):
the parsed `end.dateTime` if present, else the parsed `end.date`, else
`new Date()` — the current instant `now`. -/
def getEventEndDate (event : CalendarEvent) (now : Int) : Int :=
  match event.«end».dateTime with
  | some t => t
  | none =>
    match event.«end».date with
    | some d => d
    | none => now

/-- The in-memory event cache `this.events : Map<string, CalendarEvent[]>`
of `SyncService`, modelled as an association list in insertion order. -/
def EventCache := List (String × List CalendarEvent)
deriving Repr, DecidableEq

/-- Embeds `SyncService.getAllEvents` (src/unnamed/part_008 lines 150-156):
pushes every calendar's cached list into one flat list, in cache
iteration order. -/
def getAllEvents (events : EventCache) : List CalendarEvent :=
  (List.map Prod.snd events).flatten

/-- Embeds `SyncService.getEventsForCalendar` (src/unnamed/part_008 lines
161-163): `this.events.get(calendarId) || []`. -/
def getEventsForCalendar (events : EventCache) (calendarId : String) :
    List CalendarEvent :=
  ((events : List (String × List CalendarEvent)).lookup calendarId).getD []

/-- Embeds `SyncService.getEventsInRange` (src/unnamed/part_008 lines 168-178):
filters the flattened cache by the strict overlap test
`eventStart < end && eventEnd > start`. -/
def getEventsInRange (events : EventCache) (start «end» : Int) (now : Int) :
    List CalendarEvent :=
  (getAllEvents events).filter (fun event =>
    decide (getEventStartDate event now < «end») &&
      decide (getEventEndDate event now > start))

/-- Mutable state of a `SyncService` instance: the `SyncState` record and
the event cache. -/
structure ServiceState where
  state : SyncState
  events : EventCache
deriving Repr, DecidableEq

/-- Outcomes of the operations `syncNow` awaits, passed explicitly:
the `listCalendars()` network call, the per-calendar `listEvents` calls
inside the batch fetch, the `saveData` persistence call, and the current
instant. -/
structure SyncEnv where
  listCalendarsResult : Except String (List Calendar)
  fetchOutcome : String → Except String (List CalendarEvent)
  saveDataResult : Except String Unit
  now : Int

/-- The calendar-selection filter of `syncNow` (src/unnamed/part_008
lines 85-88): keep a calendar when no calendar is explicitly selected or
when its id is among the selected ones. -/
def selectedCalendarsOf (settings : PluginSettings) (calendars : List Calendar) :
    List Calendar :=
  calendars.filter (fun cal =>
    settings.selectedCalendars.length == 0 ||
      settings.selectedCalendars.contains cal.id)

/-- Embeds `SyncService.syncNow` (src/unnamed/part_008 lines 70-138) as a state
transformer.  Returns the service state and the settings after the call.

Control flow of the source: if already `Syncing`, return immediately.
Otherwise set the state to `Syncing` with `error` cleared, then inside
`try`: await `listCalendars()` (a rejection jumps to `catch`); filter the
selected calendars and throw `'No calendars selected for sync'` when none
remain; await the batch fetch (which itself never rejects — per-calendar
failures become empty slots); assign the whole fetched map to
`this.events`; set `settings.lastSyncTime` and await `saveData` (a
rejection jumps to `catch` — after the cache assignment); finally set the
state to `Success` with `lastSync`/`nextSync`.  The `catch` sets the
state to `Error` carrying the error message. -/
def syncNow (env : SyncEnv) (settings : PluginSettings) (s : ServiceState) :
    ServiceState × PluginSettings :=
  if s.state.status = SyncStatus.syncing then
    (s, settings)
  else
    -- updateState({status: Syncing, error: undefined})
    let syncingState : SyncState :=
      { s.state with status := SyncStatus.syncing, error := none }
    match env.listCalendarsResult with
    | .error e =>
      ({ s with state := { syncingState with status := SyncStatus.error, error := some e } },
        settings)
    | .ok calendars =>
      let selectedCalendars := selectedCalendarsOf settings calendars
      if selectedCalendars.length == 0 then
        ({ s with state :=
            { syncingState with
                status := SyncStatus.error,
                error := some "No calendars selected for sync" } },
          settings)
      else
        let eventMap := CalendarAPI.listEventsForMultipleCalendars
          (selectedCalendars.map (fun cal => cal.id)) env.fetchOutcome
        let s1 : ServiceState := { s with events := eventMap }
        let settings1 : PluginSettings :=
          { settings with lastSyncTime := some env.now }
        match env.saveDataResult with
        | .error e =>
          ({ s1 with state :=
              { syncingState with status := SyncStatus.error, error := some e } },
            settings1)
        | .ok _ =>
          ({ s1 with state :=
              { syncingState with
                  status := SyncStatus.success,
                  lastSync := some env.now,
                  nextSync := some (env.now + settings.syncInterval * 60 * 1000) } },
            settings1)

end SyncService

namespace GoogleAuth

/-- Body of a successful response of the token endpoint during refresh
(`data` in `GoogleAuth.refreshToken`).  The provider may or may not issue
a new refresh token in this response. -/
structure RefreshResponse where
  access_token : String
  expires_in : Int
  refresh_token : Option String
deriving Repr, DecidableEq

/-- Embeds `GoogleAuth.refreshToken` (src/src/auth/GoogleAuth.ts lines 102-144)
as a pure function.  `stored` is what `tokenManager.getToken()` returns,
`exchange` the outcome of the awaited token-endpoint POST (a rejected
fetch and a `!response.ok` response both end in the same
`AuthenticationError('Failed to refresh token')`), `now` the `Date.now()`
instant used for `expires_at`.

Returns the call's result (the new access token string or the raised
error) together with the token record persisted via
`tokenManager.saveToken`, `none` when nothing was persisted.

The guard `if (!token?.refresh_token)` fails when no token is stored or
when its `refresh_token` is absent or the empty string (JS falsiness).
The persisted record is `{...token, access_token, expires_in, expires_at}`
— the source never reads `data.refresh_token`. -/
def refreshToken (stored : Option OAuthToken)
    (exchange : Except String RefreshResponse) (now : Int) :
    Except CalendarError String × Option OAuthToken :=
  match stored with
  | none =>
    (.error (.authentication "No refresh token available. Please login again."), none)
  | some token =>
    if jsStrFalsy token.refresh_token then
      (.error (.authentication "No refresh token available. Please login again."), none)
    else
      match exchange with
      | .error _ =>
        (.error (.authentication "Failed to refresh token"), none)
      | .ok data =>
        let updatedToken : OAuthToken :=
          { token with
              access_token := data.access_token,
              expires_in := some data.expires_in,
              expires_at := some (now + data.expires_in * 1000) }
        (.ok updatedToken.access_token, some updatedToken)

/-- Embeds `GoogleAuth.getAccessToken` (src/src/auth/GoogleAuth.ts lines 82-97)
as a pure function.  Returns the call's result, the number of
`refreshToken()` calls performed, and the token record persisted by the
refresh (if any).  No stored token raises `AuthenticationError`; a
non-expired token is returned as is with no refresh; an expired token is
handed to `refreshToken()` exactly once (which re-reads the same stored
token). -/
def getAccessToken (stored : Option OAuthToken)
    (exchange : Except String RefreshResponse) (now : Int) :
    Except CalendarError String × Nat × Option OAuthToken :=
  match stored with
  | none =>
    (.error (.authentication "Not authenticated. Please login first."), 0, none)
  | some token =>
    if TokenManager.isTokenExpired token now then
      let (result, persisted) := refreshToken stored exchange now
      (result, 1, persisted)
    else
      (.ok token.access_token, 0, none)

/-- Outcome of the awaited `waitForAuthCode()` step of `login()`
(src/src/auth/GoogleAuth.ts lines 174-215): the callback message carries a
code or an error, the poll interval rejects when the auth window was
closed early, or the 5-minute timer fires. -/
inductive WaitResult where
  | code (authCode : String)
  | callbackError (message : String)
  | windowClosedEarly
  | timeout
deriving Repr, DecidableEq

/-- Outcomes of the operations `login()` awaits or observes:
whether `window.open` returned a window (it yields `null` when the popup
is blocked), the outcome of `waitForAuthCode()`, of the token exchange
POST (`exchangeCodeForToken`), and of `tokenManager.saveToken`.
`waitResult = windowClosedEarly` presupposes `windowOpens = true`: the
poll interval rejects only after observing `this.authWindow?.closed`. -/
structure LoginEnv where
  windowOpens : Bool
  waitResult : WaitResult
  exchange : Except String OAuthToken
  saveResult : Except String Unit
deriving Repr

/-- Embeds `GoogleAuth.login` (src/src/auth/GoogleAuth.ts lines 35-69) as a pure
function.  Returns the call's result together with the number of
`authWindow.close()` invocations performed by the `finally` block.

Any rejection inside the `try` is caught and rethrown as
`AuthenticationError(error.message)`.  The `finally` block runs
`this.authWindow.close()` only under
`if (this.authWindow && !this.authWindow.closed)`: no window was opened,
or the window is already closed (the window-closed-early failure), means
`close()` is not invoked. -/
def login (env : LoginEnv) : Except CalendarError Unit × Nat :=
  let result : Except CalendarError Unit :=
    match env.waitResult with
    | .windowClosedEarly => .error (.authentication "Authentication window was closed")
    | .timeout => .error (.authentication "Authentication timeout")
    | .callbackError message => .error (.authentication message)
    | .code _ =>
      match env.exchange with
      | .error message => .error (.authentication message)
      | .ok _ =>
        match env.saveResult with
        | .error message => .error (.authentication message)
        | .ok _ => .ok ()
  let closeCalls : Nat :=
    if env.windowOpens && !(env.waitResult == WaitResult.windowClosedEarly) then 1 else 0
  (result, closeCalls)

end GoogleAuth

/-! ## Interleaving model of concurrent `syncNow()` calls

JavaScript is single-threaded: a second `syncNow()` call can only start
while the first is suspended at one of its `await` points, and each
stretch of code between `await`s runs atomically.  `syncNow`'s guard and
its transition to `Syncing` (src/unnamed/part_008 lines 71-79) form one
such atomic stretch; every suspension point of a running sync lies
strictly between that stretch and the final stretch that leaves the
`Syncing` status.  The model below captures exactly this: each of two
calls is a sequence of three atomic segments (enter, network-fetch phase,
finish), and executions are arbitrary interleavings of the two
segment sequences. -/

namespace SyncService

/-- Program counter of one in-flight `syncNow()` call. -/
inductive SyncPC where
  /-- About to run the synchronous guard/enter segment. -/
  | start
  /-- Guard passed and status set to `Syncing`; about to run the network
  fetch phase (`listCalendars` + batch event fetch). -/
  | entered
  /-- Fetch phase done; about to run the final segment that leaves the
  `Syncing` status (success or error). -/
  | fetched
  /-- Returned immediately because the guard observed `Syncing`;
  performed no fetch. -/
  | doneEarly
  /-- Completed a full sync attempt (one fetch phase). -/
  | doneFull
deriving Repr, DecidableEq

/-- A call is active between its enter segment and its finish segment —
exactly the span in which the status it set is `Syncing`. -/
def SyncPC.isActive : SyncPC → Bool
  | .entered => true
  | .fetched => true
  | _ => false

/-- How many fetch phases a call at this program counter has run. -/
def SyncPC.fetches : SyncPC → Nat
  | .fetched => 1
  | .doneFull => 1
  | _ => 0

/-- Shared configuration of two potentially overlapping `syncNow()`
calls: the service's sync status, the number of network fetch phases run
so far, and each call's program counter. -/
structure SyncConfig where
  status : SyncStatus
  fetchCount : Nat
  pcA : SyncPC
  pcB : SyncPC
deriving Repr, DecidableEq

/-- One atomic segment of a single `syncNow()` call: the guard/enter
segment, the fetch phase, or the finish segment (`outcome` tells whether
the attempt ends in `Success` or `Error`).  Completed calls take no
further steps. -/
def syncSegment (outcome : Bool) (pc : SyncPC) (status : SyncStatus)
    (count : Nat) : SyncPC × SyncStatus × Nat :=
  match pc with
  | .start =>
    if status = SyncStatus.syncing then
      (.doneEarly, status, count)
    else
      (.entered, SyncStatus.syncing, count)
  | .entered => (.fetched, status, count + 1)
  | .fetched =>
    (.doneFull, if outcome then SyncStatus.success else SyncStatus.error, count)
  | pc => (pc, status, count)

/-- Scheduler step: let call A (`p = true`) or call B (`p = false`) run
its next atomic segment. -/
def schedStep (outcomeA outcomeB : Bool) (c : SyncConfig) (p : Bool) : SyncConfig :=
  if p then
    let (pc, status, count) := syncSegment outcomeA c.pcA c.status c.fetchCount
    { c with pcA := pc, status := status, fetchCount := count }
  else
    let (pc, status, count) := syncSegment outcomeB c.pcB c.status c.fetchCount
    { c with pcB := pc, status := status, fetchCount := count }

/-- Run a schedule (a list of which call runs each next segment). -/
def runSched (outcomeA outcomeB : Bool) (c : SyncConfig) : List Bool → SyncConfig
  | [] => c
  | p :: rest => runSched outcomeA outcomeB (schedStep outcomeA outcomeB c p) rest

/-- Initial configuration: status not `Syncing` (idle), no fetches, both
calls about to start. -/
def initConfig : SyncConfig :=
  { status := SyncStatus.idle, fetchCount := 0, pcA := .start, pcB := .start }

/-- Reachability invariant of the two-call system: mutual exclusion of
the active spans, the status is `Syncing` exactly while a call is active,
the fetch counter counts the calls that ran their fetch phase, and a call
that returned early did so because the other was active at that moment
(so the other completes fully, never early). -/
structure SyncInv (c : SyncConfig) : Prop where
  mutex : ¬(c.pcA.isActive = true ∧ c.pcB.isActive = true)
  statusSyncing : (c.status = SyncStatus.syncing) ↔
    (c.pcA.isActive = true ∨ c.pcB.isActive = true)
  countEq : c.fetchCount = c.pcA.fetches + c.pcB.fetches
  earlyA : c.pcA = .doneEarly → c.pcB.isActive = true ∨ c.pcB = .doneFull
  earlyB : c.pcB = .doneEarly → c.pcA.isActive = true ∨ c.pcA = .doneFull

end SyncService

end GCal

namespace GCal

namespace SyncService

/-- The finish segment never leaves the status at `Syncing`. -/
theorem outcome_status_ne_syncing (outcome : Bool) :
    (if outcome then SyncStatus.success else SyncStatus.error) ≠ SyncStatus.syncing := by
  cases outcome <;> simp

/-- The initial two-call configuration satisfies the invariant. -/
theorem syncInv_init : SyncInv initConfig := by
  refine ⟨?_, ?_, ?_, ?_, ?_⟩ <;> simp [initConfig, SyncPC.isActive, SyncPC.fetches]

/-- The invariant is preserved by every scheduler step. -/
theorem syncInv_step (outcomeA outcomeB : Bool) (c : SyncConfig) (p : Bool)
    (h : SyncInv c) : SyncInv (schedStep outcomeA outcomeB c p) := by
  obtain ⟨mutex, statusSyncing, countEq, earlyA, earlyB⟩ := h
  obtain ⟨status, fetchCount, pcA, pcB⟩ := c
  simp only at mutex statusSyncing countEq earlyA earlyB
  cases p <;> cases pcA <;> cases pcB <;> cases status <;>
    refine ⟨?_, ?_, ?_, ?_, ?_⟩ <;>
    simp_all [schedStep, syncSegment, SyncPC.isActive, SyncPC.fetches,
      outcome_status_ne_syncing]

/-- The invariant holds after running any schedule from an invariant
configuration. -/
theorem syncInv_run (outcomeA outcomeB : Bool) (c : SyncConfig)
    (sched : List Bool) (h : SyncInv c) :
    SyncInv (runSched outcomeA outcomeB c sched) := by
  induction sched generalizing c with
  | nil => exact h
  | cons p rest ih =>
    exact ih _ (syncInv_step outcomeA outcomeB c p h)

end SyncService

/-- C4 helper: the keys of the batch result are exactly the requested ids. -/
theorem listEventsForMultipleCalendars_keys (calendarIds : List String)
    (fetchOutcome : String → Except String (List CalendarEvent)) :
    (CalendarAPI.listEventsForMultipleCalendars calendarIds fetchOutcome).map Prod.fst
      = calendarIds := by
  induction calendarIds with
  | nil => rfl
  | cons id rest ih =>
    simp only [CalendarAPI.listEventsForMultipleCalendars, List.map_cons] at *
    cases h : fetchOutcome id <;> simp [h, ih]

/-- Helper: looking up a requested id in the batch result yields the
per-calendar slot determined by that id's own fetch outcome. -/
theorem listEventsForMultipleCalendars_lookup (calendarIds : List String)
    (fetchOutcome : String → Except String (List CalendarEvent))
    (id : String) (hmem : id ∈ calendarIds) :
    (CalendarAPI.listEventsForMultipleCalendars calendarIds fetchOutcome).lookup id
      = some (match fetchOutcome id with | .ok events => events | .error _ => []) := by
  induction calendarIds with
  | nil => cases hmem
  | cons c rest ih =>
    simp only [CalendarAPI.listEventsForMultipleCalendars, List.map_cons]
    by_cases hc : id = c
    · subst hc
      cases h : fetchOutcome id <;> simp [List.lookup, h]
    · have hmem' : id ∈ rest := by
        cases List.mem_cons.mp hmem with
        | inl h => exact absurd h hc
        | inr h => exact h
      have hne : (id == c) = false := beq_false_of_ne hc
      cases h : fetchOutcome c <;>
        simpa [List.lookup, hne, CalendarAPI.listEventsForMultipleCalendars] using
          ih hmem'

/-- Shared helper: membership in `getEventsInRange` is membership in the
flattened cache together with the strict overlap test. -/
theorem mem_getEventsInRange_iff (cache : SyncService.EventCache)
    (rangeStart rangeEnd now : Int) (event : CalendarEvent) :
    event ∈ SyncService.getEventsInRange cache rangeStart rangeEnd now ↔
      (event ∈ SyncService.getAllEvents cache ∧
        SyncService.getEventStartDate event now < rangeEnd ∧
        SyncService.getEventEndDate event now > rangeStart) := by
  simp [SyncService.getEventsInRange, List.mem_filter, and_assoc]

/-- Claim C5 (confirmed).  Range-query overlap semantics: for every cached
event set and every range `[start, end)`, `getEventsInRange(start, end)`
returns exactly the cached events whose computed start/end interval
satisfies `eventStart < rangeEnd && eventEnd > rangeStart` (strict
comparisons), so events that only partially intersect the window are
included and events entirely before or after the range are excluded. -/
theorem getEventsInRange_overlap (cache : SyncService.EventCache)
    (rangeStart rangeEnd now : Int) (event : CalendarEvent) :
    event ∈ SyncService.getEventsInRange cache rangeStart rangeEnd now ↔
      (event ∈ SyncService.getAllEvents cache ∧
        SyncService.getEventStartDate event now < rangeEnd ∧
        SyncService.getEventEndDate event now > rangeStart) :=
  mem_getEventsInRange_iff cache rangeStart rangeEnd now event

/-- Claim C4 (confirmed).  Token expiry check with 5-minute safety buffer:
a token with no expiry instant is expired; a token whose expiry instant
is more than 5 minutes after the current instant is not expired; a token
whose expiry instant is within 5 minutes of the current instant or in the
past is expired.  `now` is `Date.now()`, hence nonnegative. -/
theorem isTokenExpired_buffer (token : OAuthToken) (now : Int) (hnow : 0 ≤ now) :
    (token.expires_at = none → TokenManager.isTokenExpired token now = true) ∧
    (∀ expiresAt, token.expires_at = some expiresAt →
        now + TokenManager.bufferMs < expiresAt →
        TokenManager.isTokenExpired token now = false) ∧
    (∀ expiresAt, token.expires_at = some expiresAt →
        expiresAt ≤ now + TokenManager.bufferMs →
        TokenManager.isTokenExpired token now = true) := by
  refine ⟨?_, ?_, ?_⟩
  · intro h
    simp [TokenManager.isTokenExpired, jsNumFalsy, h]
  · intro expiresAt h hfuture
    have hne : expiresAt ≠ 0 := by
      simp only [TokenManager.bufferMs] at hfuture
      omega
    simp only [TokenManager.isTokenExpired, jsNumFalsy, h, Option.getD_some]
    rw [if_neg]
    · simp only [decide_eq_false_iff_not, not_le]
      omega
    · simpa using hne
  · intro expiresAt h hpast
    simp only [TokenManager.isTokenExpired, jsNumFalsy, h, Option.getD_some]
    by_cases hz : expiresAt = 0
    · simp [hz]
    · rw [if_neg (by simpa using hz)]
      simp only [decide_eq_true_eq]
      simp only [TokenManager.bufferMs] at hpast ⊢
      omega

/-- Claim C4 witness: `isTokenExpired` evaluated through the theorem at a
token with no expiry, one expiring more than 5 minutes from now, and one
expiring exactly at the 5-minute boundary, all at `now = 0`. -/
theorem isTokenExpired_buffer_witness :
    TokenManager.isTokenExpired ⟨"at", some "rt", "Bearer", none, none, none⟩ 0 = true ∧
    TokenManager.isTokenExpired ⟨"at", some "rt", "Bearer", none, some 300001, none⟩ 0 = false ∧
    TokenManager.isTokenExpired ⟨"at", some "rt", "Bearer", none, some 300000, none⟩ 0 = true :=
  ⟨(isTokenExpired_buffer ⟨"at", some "rt", "Bearer", none, none, none⟩ 0 (by decide)).1 rfl,
   (isTokenExpired_buffer ⟨"at", some "rt", "Bearer", none, some 300001, none⟩ 0 (by decide)).2.1
      300001 rfl (by decide),
   (isTokenExpired_buffer ⟨"at", some "rt", "Bearer", none, some 300000, none⟩ 0 (by decide)).2.2
      300000 rfl (by decide)⟩

/-- Claim C8 (confirmed).  HTTP error classification: for every
non-success response, the raised error is `AuthenticationError` exactly
when the status is 401 or 403, `NetworkError` exactly when the status is
500 or greater, and otherwise an `APIError` carrying the provider's
status code and message. -/
theorem handleErrorResponse_classification (status : Nat) (message : String)
    (_hns : ¬(200 ≤ status ∧ status < 300)) :
    ((∃ m, CalendarAPI.handleErrorResponse status message
        = CalendarError.authentication m) ↔ (status = 401 ∨ status = 403)) ∧
    ((∃ m, CalendarAPI.handleErrorResponse status message
        = CalendarError.network m) ↔ 500 ≤ status) ∧
    (status ≠ 401 → status ≠ 403 → status < 500 →
        CalendarAPI.handleErrorResponse status message
          = CalendarError.api message (some status)) := by
  by_cases h1 : status = 401
  · subst h1
    simp [CalendarAPI.handleErrorResponse]
  · by_cases h3 : status = 403
    · subst h3
      simp [CalendarAPI.handleErrorResponse]
    · have hguard : (status == 401 || status == 403) = false := by
        simp [h1, h3]
      by_cases h5 : 500 ≤ status
      · simp [CalendarAPI.handleErrorResponse, hguard, h5, h1, h3]
      · simp [CalendarAPI.handleErrorResponse, hguard, h5, h1, h3]

/-- Claim C8 witness: the theorem applied at the non-success statuses 401,
503 and 404. -/
theorem handleErrorResponse_classification_witness :
    CalendarAPI.handleErrorResponse 404 "Not Found"
        = CalendarError.api "Not Found" (some 404) ∧
    (∃ m, CalendarAPI.handleErrorResponse 401 "Unauthorized"
        = CalendarError.authentication m) ∧
    (∃ m, CalendarAPI.handleErrorResponse 503 "Unavailable"
        = CalendarError.network m) :=
  ⟨(handleErrorResponse_classification 404 "Not Found" (by decide)).2.2
      (by decide) (by decide) (by decide),
   (handleErrorResponse_classification 401 "Unauthorized" (by decide)).1.mpr
      (Or.inl rfl),
   (handleErrorResponse_classification 503 "Unavailable" (by decide)).2.1.mpr
      (by decide)⟩

/-- Claim C2 (confirmed).  Partial-failure tolerance of the batch fetch:
for every list of distinct calendar ids and every assignment of
per-calendar fetch outcomes, `listEventsForMultipleCalendars` returns a
map with exactly one entry per requested calendar id, where each calendar
whose fetch failed maps to an empty list and each calendar whose fetch
succeeded maps to its fetched events. -/
theorem listEventsForMultipleCalendars_partial_failure
    (calendarIds : List String)
    (fetchOutcome : String → Except String (List CalendarEvent))
    (hnodup : calendarIds.Nodup) :
    ((CalendarAPI.listEventsForMultipleCalendars calendarIds fetchOutcome).map
        Prod.fst = calendarIds) ∧
    (∀ id ∈ calendarIds,
        ((CalendarAPI.listEventsForMultipleCalendars calendarIds fetchOutcome).map
          Prod.fst).count id = 1) ∧
    (∀ id ∈ calendarIds, ∀ e, fetchOutcome id = .error e →
        (CalendarAPI.listEventsForMultipleCalendars calendarIds fetchOutcome).lookup id
          = some []) ∧
    (∀ id ∈ calendarIds, ∀ events, fetchOutcome id = .ok events →
        (CalendarAPI.listEventsForMultipleCalendars calendarIds fetchOutcome).lookup id
          = some events) := by
  refine ⟨listEventsForMultipleCalendars_keys calendarIds fetchOutcome, ?_, ?_, ?_⟩
  · intro id hid
    rw [listEventsForMultipleCalendars_keys calendarIds fetchOutcome]
    exact List.count_eq_one_of_mem hnodup hid
  · intro id hid e herr
    rw [listEventsForMultipleCalendars_lookup calendarIds fetchOutcome id hid, herr]
  · intro id hid events hok
    rw [listEventsForMultipleCalendars_lookup calendarIds fetchOutcome id hid, hok]

/-- Claim C2 witness: a 2-calendar batch in which `cal1` fails and `cal2`
succeeds still yields a 2-entry map with `cal1 ↦ []` and `cal2` populated. -/
theorem listEventsForMultipleCalendars_partial_failure_witness :
    let ev : CalendarEvent :=
      ⟨"e2", "Meeting", none, none, ⟨some 100, none, none⟩, ⟨some 200, none, none⟩,
        "cal2", none, "link"⟩
    let outcome : String → Except String (List CalendarEvent) := fun id =>
      if id = "cal1" then .error "boom" else .ok [ev]
    ((CalendarAPI.listEventsForMultipleCalendars ["cal1", "cal2"] outcome).map
        Prod.fst = ["cal1", "cal2"]) ∧
    (CalendarAPI.listEventsForMultipleCalendars ["cal1", "cal2"] outcome).lookup "cal1"
        = some [] ∧
    (CalendarAPI.listEventsForMultipleCalendars ["cal1", "cal2"] outcome).lookup "cal2"
        = some [ev] := by
  intro ev outcome
  obtain ⟨hkeys, _hcount, herr, hok⟩ :=
    listEventsForMultipleCalendars_partial_failure ["cal1", "cal2"] outcome (by decide)
  exact ⟨hkeys, herr "cal1" (by decide) "boom" rfl, hok "cal2" (by decide) [ev] rfl⟩

/-- Claim C1 (confirmed).  Single-flight sync guard.  First conjunct: from
any state whose status is `Syncing`, the guard/enter segment of a
`syncNow()` call returns immediately, changing nothing and performing no
fetch.  Second conjunct: in every interleaved execution of two
`syncNow()` calls from a non-syncing initial state, if the calls
overlapped (one of them hit the guard — which, under the event-loop
model, is exactly what happens to a call issued while the other is
pending) and both completed, the underlying calendar/event fetch phase
ran exactly once. -/
theorem syncNow_single_flight :
    (∀ (outcome : Bool) (status : SyncStatus) (count : Nat),
        status = SyncStatus.syncing →
        SyncService.syncSegment outcome SyncService.SyncPC.start status count
          = (SyncService.SyncPC.doneEarly, status, count)) ∧
    (∀ (outcomeA outcomeB : Bool) (sched : List Bool),
        ((SyncService.runSched outcomeA outcomeB SyncService.initConfig sched).pcA
            = SyncService.SyncPC.doneEarly ∨
          (SyncService.runSched outcomeA outcomeB SyncService.initConfig sched).pcB
            = SyncService.SyncPC.doneEarly) →
        ((SyncService.runSched outcomeA outcomeB SyncService.initConfig sched).pcA
            = SyncService.SyncPC.doneEarly ∨
          (SyncService.runSched outcomeA outcomeB SyncService.initConfig sched).pcA
            = SyncService.SyncPC.doneFull) →
        ((SyncService.runSched outcomeA outcomeB SyncService.initConfig sched).pcB
            = SyncService.SyncPC.doneEarly ∨
          (SyncService.runSched outcomeA outcomeB SyncService.initConfig sched).pcB
            = SyncService.SyncPC.doneFull) →
        (SyncService.runSched outcomeA outcomeB SyncService.initConfig sched).fetchCount
          = 1) := by
  constructor
  · intro outcome status count h
    subst h
    rfl
  · intro outcomeA outcomeB sched hoverlap hdoneA hdoneB
    obtain ⟨mutex, statusSyncing, countEq, earlyA, earlyB⟩ :=
      SyncService.syncInv_run outcomeA outcomeB SyncService.initConfig sched
        SyncService.syncInv_init
    rcases hoverlap with hA | hB
    · rcases earlyA hA with hact | hfull
      · exfalso
        rcases hdoneB with h | h <;> rw [h] at hact <;> simp [SyncService.SyncPC.isActive] at hact
      · rw [countEq, hA, hfull]
        rfl
    · rcases earlyB hB with hact | hfull
      · exfalso
        rcases hdoneA with h | h <;> rw [h] at hact <;> simp [SyncService.SyncPC.isActive] at hact
      · rw [countEq, hB, hfull]
        rfl

/-- Claim C1 witness: the guard applied at a concrete syncing state, and a
concrete overlapping schedule — call A enters, call B's guard runs while
A is pending (B returns early), A fetches and finishes — with exactly one
fetch. -/
theorem syncNow_single_flight_witness :
    SyncService.syncSegment true SyncService.SyncPC.start SyncStatus.syncing 0
        = (SyncService.SyncPC.doneEarly, SyncStatus.syncing, 0) ∧
    (SyncService.runSched true true SyncService.initConfig
        [true, false, true, true]).fetchCount = 1 :=
  ⟨syncNow_single_flight.1 true SyncStatus.syncing 0 rfl,
   syncNow_single_flight.2 true true [true, false, true, true]
      (by decide) (by decide) (by decide)⟩

/-- Claim C6 (confirmed).  `getAccessToken()` contract: with no stored
token it fails with `AuthenticationError` and performs no refresh; with a
stored token that is not expired (per the buffered check) it returns that
token's access token string with no refresh; with a stored token that is
expired and carries a refresh token, it performs exactly one refresh and,
when the exchange succeeds, returns the provider's new access token
string — the caller never sees a raw "expired" condition. -/
theorem getAccessToken_contract (now : Int)
    (exchange : Except String GoogleAuth.RefreshResponse) :
    (GoogleAuth.getAccessToken none exchange now
        = (.error (.authentication "Not authenticated. Please login first."), 0, none)) ∧
    (∀ token : OAuthToken, TokenManager.isTokenExpired token now = false →
        GoogleAuth.getAccessToken (some token) exchange now
          = (.ok token.access_token, 0, none)) ∧
    (∀ token : OAuthToken, TokenManager.isTokenExpired token now = true →
        (GoogleAuth.getAccessToken (some token) exchange now).2.1 = 1) ∧
    (∀ (token : OAuthToken) (data : GoogleAuth.RefreshResponse),
        TokenManager.isTokenExpired token now = true →
        jsStrFalsy token.refresh_token = false →
        exchange = .ok data →
        (GoogleAuth.getAccessToken (some token) exchange now).1
          = .ok data.access_token) := by
  refine ⟨rfl, ?_, ?_, ?_⟩
  · intro token hfresh
    simp [GoogleAuth.getAccessToken, hfresh]
  · intro token hexp
    simp [GoogleAuth.getAccessToken, hexp]
  · intro token data hexp hrt hok
    subst hok
    simp [GoogleAuth.getAccessToken, GoogleAuth.refreshToken, hexp, hrt]

/-- Claim C6 witness: the theorem applied with no stored token, with a
fresh token (`expires_at` far in the future), and with an expired token
holding a refresh token together with a successful exchange. -/
theorem getAccessToken_contract_witness :
    GoogleAuth.getAccessToken none (.ok ⟨"new", 3600, none⟩) 0
        = (.error (.authentication "Not authenticated. Please login first."), 0, none) ∧
    GoogleAuth.getAccessToken (some ⟨"fresh", some "rt", "Bearer", none, some 1000000, none⟩)
        (.ok ⟨"new", 3600, none⟩) 0 = (.ok "fresh", 0, none) ∧
    (GoogleAuth.getAccessToken (some ⟨"stale", some "rt", "Bearer", none, some 100, none⟩)
        (.ok ⟨"new", 3600, none⟩) 0).2.1 = 1 ∧
    (GoogleAuth.getAccessToken (some ⟨"stale", some "rt", "Bearer", none, some 100, none⟩)
        (.ok ⟨"new", 3600, none⟩) 0).1 = .ok "new" :=
  ⟨(getAccessToken_contract 0 (.ok ⟨"new", 3600, none⟩)).1,
   (getAccessToken_contract 0 (.ok ⟨"new", 3600, none⟩)).2.1
      ⟨"fresh", some "rt", "Bearer", none, some 1000000, none⟩ (by decide),
   (getAccessToken_contract 0 (.ok ⟨"new", 3600, none⟩)).2.2.1
      ⟨"stale", some "rt", "Bearer", none, some 100, none⟩ (by decide),
   (getAccessToken_contract 0 (.ok ⟨"new", 3600, none⟩)).2.2.2
      ⟨"stale", some "rt", "Bearer", none, some 100, none⟩ ⟨"new", 3600, none⟩
      (by decide) (by decide) rfl⟩

/-- Claim C3 counterexample.  A sync attempt that ends in the error state
with the event cache changed: the calendar list and the batch fetch
succeed, the cache is assigned the fresh map, and then the awaited
`saveData` call rejects — the `catch` sets the status to `Error`, yet the
cache now holds the freshly fetched (here empty) event lists instead of
the events of the last successful sync.  This refutes "for every sync
attempt that ends in the error state (for any thrown error), the event
cache is unchanged". -/
theorem syncNow_error_cache_changed_counterexample :
    let event : CalendarEvent :=
      ⟨"e1", "Old event", none, none, ⟨some 0, none, none⟩, ⟨some 1, none, none⟩,
        "cal1", none, "link"⟩
    let cal : Calendar := ⟨"cal1", "Calendar 1", none, none, none, true, none, none, none⟩
    let env : SyncService.SyncEnv :=
      ⟨.ok [cal], fun _ => .ok [], .error "saveData failed", 0⟩
    let settings : PluginSettings := ⟨false, 15, [], none⟩
    let s : SyncService.ServiceState :=
      ⟨⟨SyncStatus.idle, none, none, none⟩, [("cal1", [event])]⟩
    (SyncService.syncNow env settings s).1.state.status = SyncStatus.error ∧
    (SyncService.syncNow env settings s).1.events ≠ s.events ∧
    SyncService.getAllEvents (SyncService.syncNow env settings s).1.events
      ≠ SyncService.getAllEvents s.events := by
  decide

/-- Claim C3 (corrected).  Sync atomicity with respect to the event cache:
a sync attempt that fails before the cache assignment (the calendar-list
fetch rejects, or no calendars remain selected) ends in the error state
with the cache — and hence `getAllEvents()` — unchanged; and after any
sync attempt the cache is either exactly the previous cache or exactly
the complete freshly fetched per-calendar map, never a partial mix.  (An
error thrown after the assignment, e.g. by `saveData`, ends in the error
state with the fully replaced cache.) -/
theorem syncNow_cache_atomicity (env : SyncService.SyncEnv)
    (settings : PluginSettings) (s : SyncService.ServiceState)
    (hrun : s.state.status ≠ SyncStatus.syncing) :
    (∀ e, env.listCalendarsResult = .error e →
        (SyncService.syncNow env settings s).1.events = s.events ∧
        SyncService.getAllEvents (SyncService.syncNow env settings s).1.events
          = SyncService.getAllEvents s.events ∧
        (SyncService.syncNow env settings s).1.state.status = SyncStatus.error) ∧
    (∀ calendars, env.listCalendarsResult = .ok calendars →
        SyncService.selectedCalendarsOf settings calendars = [] →
        (SyncService.syncNow env settings s).1.events = s.events ∧
        SyncService.getAllEvents (SyncService.syncNow env settings s).1.events
          = SyncService.getAllEvents s.events ∧
        (SyncService.syncNow env settings s).1.state.status = SyncStatus.error) ∧
    ((SyncService.syncNow env settings s).1.events = s.events ∨
      ∃ calendars, env.listCalendarsResult = .ok calendars ∧
        (SyncService.syncNow env settings s).1.events =
          CalendarAPI.listEventsForMultipleCalendars
            ((SyncService.selectedCalendarsOf settings calendars).map
              (fun cal => cal.id))
            env.fetchOutcome) := by
  refine ⟨?_, ?_, ?_⟩
  · intro e herr
    simp [SyncService.syncNow, hrun, herr]
  · intro calendars hok hempty
    simp [SyncService.syncNow, hrun, hok, hempty]
  · by_cases hsync : s.state.status = SyncStatus.syncing
    · exact absurd hsync hrun
    · cases hcal : env.listCalendarsResult with
      | error e => left; simp [SyncService.syncNow, hrun, hcal]
      | ok calendars =>
        by_cases hempty :
            (SyncService.selectedCalendarsOf settings calendars).length == 0
        · left
          simp [SyncService.syncNow, hrun, hcal, hempty]
        · right
          refine ⟨calendars, rfl, ?_⟩
          cases hsave : env.saveDataResult with
          | error e => simp [SyncService.syncNow, hrun, hcal, hempty, hsave]
          | ok u => simp [SyncService.syncNow, hrun, hcal, hempty, hsave]

/-- Claim C3 witness (for the amended claim): a sync whose calendar-list
fetch rejects leaves the concrete one-calendar cache and its flattened
view untouched and ends in the error state. -/
theorem syncNow_cache_atomicity_witness :
    let event : CalendarEvent :=
      ⟨"e1", "Old event", none, none, ⟨some 0, none, none⟩, ⟨some 1, none, none⟩,
        "cal1", none, "link"⟩
    let env : SyncService.SyncEnv :=
      ⟨.error "network down", fun _ => .ok [], .ok (), 0⟩
    let settings : PluginSettings := ⟨false, 15, [], none⟩
    let s : SyncService.ServiceState :=
      ⟨⟨SyncStatus.idle, none, none, none⟩, [("cal1", [event])]⟩
    (SyncService.syncNow env settings s).1.events = s.events ∧
    SyncService.getAllEvents (SyncService.syncNow env settings s).1.events
      = SyncService.getAllEvents s.events ∧
    (SyncService.syncNow env settings s).1.state.status = SyncStatus.error := by
  intro event env settings s
  exact (syncNow_cache_atomicity env settings s (by decide)).1 "network down" rfl

/-- Claim C7 counterexample.  A refresh exchange in which the provider
issues a new refresh token: the persisted record still carries the
original refresh token — the source builds `{...token, access_token,
expires_in, expires_at}` and never reads the response's `refresh_token`.
This refutes "…unless the provider's exchange response issues a new
refresh token, in which case the new one is stored". -/
theorem refreshToken_ignores_new_refresh_token_counterexample :
    let token : OAuthToken := ⟨"old-access", some "old-refresh", "Bearer", none, some 1000, none⟩
    let response : GoogleAuth.RefreshResponse := ⟨"new-access", 3600, some "new-refresh"⟩
    response.refresh_token = some "new-refresh" ∧
    ((GoogleAuth.refreshToken (some token) (.ok response) 0).2.map
        OAuthToken.refresh_token) = some (some "old-refresh") ∧
    ("old-refresh" : String) ≠ "new-refresh" := by
  decide

/-- Claim C7 (corrected).  `refreshToken()` contract: with no stored token,
or a stored token whose refresh token is absent or empty, the call fails
with `AuthenticationError` and nothing is persisted; a rejected exchange
fails with `AuthenticationError` and nothing is persisted; on a
successful exchange the persisted record carries the provider's new
access token and expiry and **always** preserves the original refresh
token — a refresh token issued in the exchange response is ignored. -/
theorem refreshToken_contract (stored : Option OAuthToken)
    (exchange : Except String GoogleAuth.RefreshResponse) (now : Int) :
    (stored = none →
        GoogleAuth.refreshToken stored exchange now
          = (.error (.authentication "No refresh token available. Please login again."),
              none)) ∧
    (∀ token, stored = some token → jsStrFalsy token.refresh_token = true →
        GoogleAuth.refreshToken stored exchange now
          = (.error (.authentication "No refresh token available. Please login again."),
              none)) ∧
    (∀ token e, stored = some token → jsStrFalsy token.refresh_token = false →
        exchange = .error e →
        GoogleAuth.refreshToken stored exchange now
          = (.error (.authentication "Failed to refresh token"), none)) ∧
    (∀ token data, stored = some token → jsStrFalsy token.refresh_token = false →
        exchange = .ok data →
        GoogleAuth.refreshToken stored exchange now
          = (.ok data.access_token,
              some { token with
                  access_token := data.access_token,
                  expires_in := some data.expires_in,
                  expires_at := some (now + data.expires_in * 1000) })) := by
  refine ⟨?_, ?_, ?_, ?_⟩
  · intro h
    subst h
    rfl
  · intro token h hflat
    subst h
    simp [GoogleAuth.refreshToken, hflat]
  · intro token e h hrt hexc
    subst h
    subst hexc
    simp [GoogleAuth.refreshToken, hrt]
  · intro token data h hrt hexc
    subst h
    subst hexc
    simp [GoogleAuth.refreshToken, hrt]

/-- Claim C7 witness (for the amended claim): a concrete successful
exchange persists the new access token and expiry while keeping the
stored refresh token, and a concrete token without a refresh token fails
with nothing persisted. -/
theorem refreshToken_contract_witness :
    GoogleAuth.refreshToken
        (some ⟨"old-access", some "old-refresh", "Bearer", none, some 1000, none⟩)
        (.ok ⟨"new-access", 3600, some "new-refresh"⟩) 0
      = (.ok "new-access",
          some ⟨"new-access", some "old-refresh", "Bearer", some 3600, some 3600000, none⟩) ∧
    GoogleAuth.refreshToken (some ⟨"a", none, "Bearer", none, some 1000, none⟩)
        (.ok ⟨"new-access", 3600, none⟩) 0
      = (.error (.authentication "No refresh token available. Please login again."), none) :=
  ⟨(refreshToken_contract
      (some ⟨"old-access", some "old-refresh", "Bearer", none, some 1000, none⟩)
      (.ok ⟨"new-access", 3600, some "new-refresh"⟩) 0).2.2.2
      ⟨"old-access", some "old-refresh", "Bearer", none, some 1000, none⟩
      ⟨"new-access", 3600, some "new-refresh"⟩ rfl (by decide) rfl,
   (refreshToken_contract (some ⟨"a", none, "Bearer", none, some 1000, none⟩)
      (.ok ⟨"new-access", 3600, none⟩) 0).2.1
      ⟨"a", none, "Bearer", none, some 1000, none⟩ rfl (by decide)⟩

/-- Claim C9 counterexample.  A `login()` execution that fails because the
auth window was closed early: the `finally` block's guard
`if (this.authWindow && !this.authWindow.closed)` sees a closed window,
so `close()` is invoked zero times — refuting "the transient auth
window's `close()` is invoked exactly once" for every execution.  (The
call does reject with `AuthenticationError`.) -/
theorem login_window_closed_early_counterexample :
    let env : GoogleAuth.LoginEnv :=
      ⟨true, GoogleAuth.WaitResult.windowClosedEarly,
        .ok ⟨"a", some "r", "Bearer", none, none, none⟩, .ok ()⟩
    (GoogleAuth.login env).2 = 0 ∧ ¬(GoogleAuth.login env).2 = 1 ∧
    (GoogleAuth.login env).1
      = .error (.authentication "Authentication window was closed") := by
  intro env
  exact ⟨rfl, by decide, rfl⟩

/-- Claim C9 (corrected).  Scoped release of the auth browser window:
whenever the window was opened and is not already closed when `login()`
completes — success, callback error, timeout, rejected exchange, or save
failure — `close()` is invoked exactly once; `close()` is never invoked
more than once; when the window never opened or was closed early by the
user, `close()` is not invoked (there is no open window left behind); and
every failing execution rejects with `AuthenticationError`. -/
theorem login_scoped_release (env : GoogleAuth.LoginEnv) :
    (env.windowOpens = true →
        env.waitResult ≠ GoogleAuth.WaitResult.windowClosedEarly →
        (GoogleAuth.login env).2 = 1) ∧
    (GoogleAuth.login env).2 ≤ 1 ∧
    (env.windowOpens = false ∨ env.waitResult = GoogleAuth.WaitResult.windowClosedEarly →
        (GoogleAuth.login env).2 = 0) ∧
    (∀ err, (GoogleAuth.login env).1 = .error err →
        ∃ m, err = CalendarError.authentication m) := by
  refine ⟨?_, ?_, ?_, ?_⟩
  · intro hopen hne
    simp [GoogleAuth.login, hopen, hne]
  · simp only [GoogleAuth.login]
    split <;> simp
  · intro h
    rcases h with h | h <;> simp [GoogleAuth.login, h]
  · intro err herr
    simp only [GoogleAuth.login] at herr
    cases hw : env.waitResult <;> rw [hw] at herr
    · cases hx : env.exchange <;> rw [hx] at herr
      · exact ⟨_, (Except.error.injEq _ _).mp herr |>.symm⟩
      · cases hs : env.saveResult <;> rw [hs] at herr
        · exact ⟨_, (Except.error.injEq _ _).mp herr |>.symm⟩
        · cases herr
    · exact ⟨_, (Except.error.injEq _ _).mp herr |>.symm⟩
    · exact ⟨_, (Except.error.injEq _ _).mp herr |>.symm⟩
    · exact ⟨_, (Except.error.injEq _ _).mp herr |>.symm⟩

/-- Claim C9 witness (for the amended claim): a concrete failing execution
— the wait-for-callback step times out with the window still open —
invokes `close()` exactly once and rejects with `AuthenticationError`. -/
theorem login_scoped_release_witness :
    (GoogleAuth.login
        ⟨true, GoogleAuth.WaitResult.timeout,
          .ok ⟨"a", some "r", "Bearer", none, none, none⟩, .ok ()⟩).2 = 1 ∧
    (∃ m, CalendarError.authentication "Authentication timeout"
        = CalendarError.authentication m) :=
  ⟨(login_scoped_release
      ⟨true, GoogleAuth.WaitResult.timeout,
        .ok ⟨"a", some "r", "Bearer", none, none, none⟩, .ok ()⟩).1 rfl (by decide),
   (login_scoped_release
      ⟨true, GoogleAuth.WaitResult.timeout,
        .ok ⟨"a", some "r", "Bearer", none, none, none⟩, .ok ()⟩).2.2.2
      (.authentication "Authentication timeout") rfl⟩

/-- Claim C10 counterexample.  An event whose start and end carry neither a
timestamp nor a date-only value, queried with the range `[1000, 2000)` at
query-time clock `now = 1000`: the half-open range contains `now`, yet
the event is excluded, because the substituted end bound `now` fails the
strict test `eventEnd > rangeStart`.  This refutes "such an event is
included in any queried range that contains 'now'". -/
theorem missing_bounds_boundary_counterexample :
    let event : CalendarEvent :=
      ⟨"e", "No bounds", none, none, ⟨none, none, none⟩, ⟨none, none, none⟩,
        "cal", none, "link"⟩
    let cache : SyncService.EventCache := [("cal", [event])]
    ((1000 : Int) ≤ 1000 ∧ (1000 : Int) < 2000) ∧
    event ∉ SyncService.getEventsInRange cache 1000 2000 1000 := by
  decide

/-- Claim C10 (corrected).  For every cached event whose start
(respectively end) field carries neither a timestamp nor a date-only
value, the range queries substitute the query-time instant `now` for that
missing bound; an event missing both bounds is therefore included in
`getEventsInRange(start, end)` exactly when `start < now < end` — its
inclusion depends on the query-time clock rather than failing or being
excluded, but a range whose start equals `now` excludes it (strict
overlap test), so inclusion holds for ranges strictly straddling `now`,
not for every range containing `now`. -/
theorem missing_bounds_use_query_clock (event : CalendarEvent) (now : Int)
    (hsdt : event.start.dateTime = none) (hsd : event.start.date = none)
    (hedt : event.«end».dateTime = none) (hed : event.«end».date = none)
    (cache : SyncService.EventCache)
    (hmem : event ∈ SyncService.getAllEvents cache)
    (rangeStart rangeEnd : Int) :
    SyncService.getEventStartDate event now = now ∧
    SyncService.getEventEndDate event now = now ∧
    (event ∈ SyncService.getEventsInRange cache rangeStart rangeEnd now ↔
      (rangeStart < now ∧ now < rangeEnd)) := by
  have hstart : SyncService.getEventStartDate event now = now := by
    simp [SyncService.getEventStartDate, hsdt, hsd]
  have hend : SyncService.getEventEndDate event now = now := by
    simp [SyncService.getEventEndDate, hedt, hed]
  refine ⟨hstart, hend, ?_⟩
  rw [mem_getEventsInRange_iff, hstart, hend]
  constructor
  · rintro ⟨_, hlt, hgt⟩
    exact ⟨hgt, hlt⟩
  · rintro ⟨hgt, hlt⟩
    exact ⟨hmem, hlt, hgt⟩

/-- Claim C10 witness (for the amended claim): a concrete cached event with
no start/end values, queried at clock `5` over the range `[0, 10)`: both
bounds collapse to `5` and membership is equivalent to `0 < 5 ∧ 5 < 10`. -/
theorem missing_bounds_use_query_clock_witness :
    let event : CalendarEvent :=
      ⟨"e", "No bounds", none, none, ⟨none, none, none⟩, ⟨none, none, none⟩,
        "cal", none, "link"⟩
    let cache : SyncService.EventCache := [("cal", [event])]
    SyncService.getEventStartDate event 5 = 5 ∧
    SyncService.getEventEndDate event 5 = 5 ∧
    (event ∈ SyncService.getEventsInRange cache 0 10 5 ↔
      ((0 : Int) < 5 ∧ (5 : Int) < 10)) := by
  intro event cache
  exact missing_bounds_use_query_clock event 5 rfl rfl rfl rfl cache (by decide) 0 10

end GCal
